import Mathlib

/-!
Shallow embedding of the ds9samp package (src/ds9samp/init module).

The embedding follows the Python source function by function:

* NumPy element types and byte orders are modelled by small inductive
  types; the functions dtype_to_bitpix, bitpix_to_dtype and np_to_array
  are direct transcriptions of the Python functions of the same names.
* Raising a Python ValueError is modelled by Except.error carrying the
  message string of the raise statement.
* External collaborators (the SAMP bus reply envelope, urlparse, file
  reads, and the DS9 probes answered over the bus) are passed in as
  explicit data or oracle functions; the Connection methods get, set,
  send_array and retrieve_array become pure functions of those inputs
  that return the reported messages, the commands issued over the bus,
  and the returned value.
-/

namespace Ds9samp

/-- NumPy element types relevant to the module: the signed and unsigned
integers, the floating types, booleans and complex numbers. -/
inductive NPType where
  | int8 | int16 | int32 | int64
  | uint8 | uint16 | uint32 | uint64
  | float16 | float32 | float64
  | bool_ | complex64 | complex128
  deriving DecidableEq, Repr

/-- The dtype itemsize attribute: width of one element in bytes. -/
def NPType.itemsize : NPType → Nat
  | .int8 | .uint8 | .bool_ => 1
  | .int16 | .uint16 | .float16 => 2
  | .int32 | .uint32 | .float32 => 4
  | .int64 | .uint64 | .float64 | .complex64 => 8
  | .complex128 => 16

/-- Truth value of np.issubdtype(dtype, np.integer): signed and unsigned
integer types, but not booleans. -/
def NPType.isInteger : NPType → Bool
  | .int8 | .int16 | .int32 | .int64 => true
  | .uint8 | .uint16 | .uint32 | .uint64 => true
  | _ => false

/-- Truth value of np.issubdtype(dtype, np.signedinteger). -/
def NPType.isSignedInteger : NPType → Bool
  | .int8 | .int16 | .int32 | .int64 => true
  | _ => false

/-- Truth value of np.issubdtype(dtype, np.floating): the real floating
types, not complex. -/
def NPType.isFloating : NPType → Bool
  | .float16 | .float32 | .float64 => true
  | _ => false

/-- The str form of the dtype, used in error messages. -/
def NPType.name : NPType → String
  | .int8 => "int8"
  | .int16 => "int16"
  | .int32 => "int32"
  | .int64 => "int64"
  | .uint8 => "uint8"
  | .uint16 => "uint16"
  | .uint32 => "uint32"
  | .uint64 => "uint64"
  | .float16 => "float16"
  | .float32 => "float32"
  | .float64 => "float64"
  | .bool_ => "bool"
  | .complex64 => "complex64"
  | .complex128 => "complex128"

/-- The dtype byteorder character: little is the character <, big is >,
native is =, and notApplicable is | (single-byte types). -/
inductive ByteOrder where
  | little | big | native | notApplicable
  deriving DecidableEq, Repr

/-- A NumPy dtype as used by the module: the element type together with
the declared byte order. -/
structure NPDtype where
  type : NPType
  byteorder : ByteOrder
  deriving DecidableEq, Repr

/-- Transcription of dtype_to_bitpix: integer types (signed or unsigned)
map to itemsize times 8, floating types to the negation of that, and any
other element kind raises ValueError. -/
def dtype_to_bitpix (dtype : NPDtype) : Except String Int :=
  let size := dtype.type.itemsize
  if dtype.type.isInteger then .ok ((size : Int) * 8)
  else if dtype.type.isFloating then .ok (-((size : Int) * 8))
  else .error ("Unsupported dtype: " ++ dtype.type.name)

/-- Transcription of bitpix_to_dtype: the Python match statement over the
integer code, returning the element type of np.dtype of the matched name,
and None for every other code. -/
def bitpix_to_dtype (bpix : Int) : Option NPType :=
  if bpix = -64 then some .float64
  else if bpix = -32 then some .float32
  else if bpix = -16 then some .float16
  else if bpix = 64 then some .int64
  else if bpix = 32 then some .int32
  else if bpix = 16 then some .int16
  else if bpix = 8 then some .int8
  else none

/-- The arch option appended by np_to_array: the match on the dtype
byteorder character adds arch=little for <, arch=big for >, and nothing
for native or not-applicable orders. -/
def archTokens : ByteOrder → List String
  | .little => ["arch=little"]
  | .big => ["arch=big"]
  | _ => []

/-- Tail of np_to_array after the dimension options are built: the empty
check on the x and y extents, the bitpix lookup (whose ValueError
propagates), the arch match, and the final join into the bracketed
descriptor. -/
def np_to_array_tail (opts : List String) (ny nx : Nat) (dtype : NPDtype) :
    Except String String :=
  if nx = 0 ∨ ny = 0 then .error ("array appears to be empty")
  else
    match dtype_to_bitpix dtype with
    | .error e => .error e
    | .ok bpix =>
        .ok ("[" ++ String.intercalate ","
          (opts ++ ["bitpix=" ++ toString bpix] ++ archTokens dtype.byteorder)
          ++ "]")

/-- Transcription of np_to_array: the match on img.ndim builds the xdim,
ydim and (for 3D) zdim options from the shape and rejects any other rank;
the rest of the function is np_to_array_tail. The array is represented by
its shape (a list of axis extents, slowest axis first, as in NumPy) and
its dtype. -/
def np_to_array (shape : List Nat) (dtype : NPDtype) : Except String String :=
  match shape with
  | [ny, nx] =>
      np_to_array_tail ["xdim=" ++ toString nx, "ydim=" ++ toString ny] ny nx dtype
  | [nz, ny, nx] =>
      np_to_array_tail
        ["xdim=" ++ toString nx, "ydim=" ++ toString ny, "zdim=" ++ toString nz]
        ny nx dtype
  | _ =>
      .error ("img must be 2D or 3D, sent " ++ toString shape.length ++ "D")

/-- The Cube enumeration selecting how DS9 treats a 3D cube. -/
inductive Cube where
  | RGB | HLS | HSV
  deriving DecidableEq, Repr

/-- The action string chosen by the match on the cube argument inside
send_array. -/
def cubeAction : Cube → String
  | .RGB => "rgb"
  | .HLS => "hls"
  | .HSV => "hsv"

/-- A command issued over the SAMP bus: a ds9.get or a ds9.set with its
command text. -/
inductive Command where
  | get (cmd : String)
  | set (cmd : String)
  deriving DecidableEq, Repr

/-- The bool hack at the top of send_array: an array of booleans is first
converted with astype to int8 (whose dtype has the not-applicable byte
order); every other dtype passes through unchanged. -/
def boolToInt8 (dtype : NPDtype) : NPDtype :=
  if dtype.type = NPType.bool_ then ⟨NPType.int8, ByteOrder.notApplicable⟩
  else dtype

/-- Transcription of Connection.send_array. The array is given by its
shape and dtype; frameActive is the reply of the probe get of the frame
active command (None when DS9 reports no active frame); tmpfile is the
name of the temporary transfer file. The result is either the ValueError
raised during validation — raised before any command reaches the bus, so
an error result carries no command list — or the full ordered list of
bus commands the call issues. -/
def send_array (shape : List Nat) (dtype : NPDtype) (cube : Option Cube)
    (mask : Bool) (frameActive : Option String) (tmpfile : String) :
    Except String (List Command) :=
  let dtype := boolToInt8 dtype
  match np_to_array shape dtype with
  | .error e => .error e
  | .ok arr =>
    let actionE : Except String String :=
      match cube with
      | none => .ok ""
      | some c =>
          if shape.length ≠ 3 then
            .error ("data must be 3D to set the cube argument")
          else if shape.headD 0 ≠ 3 then
            .error ("z axis must have size 3 when cube argument is set")
          else .ok (cubeAction c)
    match actionE with
    | .error e => .error e
    | .ok action =>
        let cmds := [Command.get ("frame active")]
        let cmds := cmds ++
          (if frameActive.isNone then [Command.set ("frame new")] else [])
        let cmds := cmds ++
          (if action ≠ "" then [Command.set action] else [])
        let cmd := action ++ "array " ++ (if mask then "mask " else "")
          ++ " " ++ tmpfile ++ arr
        .ok (cmds ++ [Command.set cmd])

/-- The samp.status field of a well-formed SAMP reply envelope. -/
inductive SampStatus where
  | ok | warning | error
  deriving DecidableEq, Repr

/-- A well-formed SAMP reply envelope as consumed by Connection.get and
Connection.set: the status, the samp.errortxt entry of the samp.error map
(the map itself is guaranteed by the SAMP protocol whenever the status is
not ok; its errortxt entry may still be absent), and the value and url
entries of the samp.result map. -/
structure Envelope where
  status : SampStatus
  errortxt : Option String
  value : Option String
  url : Option String
  deriving DecidableEq, Repr

/-- A message printed to the console by the error or warning helpers. -/
inductive Message where
  | err (msg : String)
  | warn (msg : String)
  deriving DecidableEq, Repr

/-- The message built from the samp.error map: the samp.errortxt entry
when present, else the generic placeholder. -/
def ds9ErrorMessage (errortxt : Option String) : String :=
  match errortxt with
  | some t => "DS9 reported: " ++ t
  | none => "Unknown DS9 error"

/-- Result of urlparse as used by Connection.get: the scheme and the
path components. -/
structure ParsedUrl where
  scheme : String
  path : String
  deriving DecidableEq, Repr

/-- Transcription of Connection.get, as a function of the reply envelope
and of two oracles for the external collaborators: up models urlparse and
readFile models opening and reading a local file (None meaning the open
raises IOError). The result is Except: an error is a raised exception (a
transport-level fault), an ok result is the list of printed messages
paired with the returned value (None when the call returns None). -/
def conn_get (env : Envelope) (up : String → ParsedUrl)
    (readFile : String → Option String) :
    Except String (List Message × Option String) :=
  match env.status with
  | .error => .ok ([.err (ds9ErrorMessage env.errortxt)], none)
  | s =>
    let msgs : List Message :=
      if s = SampStatus.warning then [.warn (ds9ErrorMessage env.errortxt)]
      else []
    match env.value with
    | some v => .ok (msgs, some v)
    | none =>
      match env.url with
      | some u =>
          let res := up u
          if res.scheme ≠ "file" then
            .ok (msgs ++ [.err ("expected file url, not " ++ u)], none)
          else
            match readFile res.path with
            | some contents => .ok (msgs, some contents)
            | none => .error ("could not open " ++ res.path)
      | none => .ok (msgs, none)

/-- Transcription of Connection.set as a function of the reply envelope:
the call returns no value and never raises on a well-formed reply, so the
model returns just the list of printed messages. -/
def conn_set (env : Envelope) : List Message :=
  match env.status with
  | .ok => []
  | .warning => [.warn (ds9ErrorMessage env.errortxt)]
  | .error => [.err (ds9ErrorMessage env.errortxt)]

/-- The convert helper inside retrieve_array: the get of the fits probe
returns either None (converted to 0) or a value that converts to an
integer. The probe oracle maps the full command text to that reply. -/
def fitsProbe (probe : String → Option Int) (arg : String) : Int :=
  match probe ("fits " ++ arg) with
  | none => 0
  | some v => v

/-- The shape selection inside retrieve_array: a depth greater than one
selects the 3D shape (nz, ny, nx), anything else the 2D shape (ny, nx). -/
def decodeShape (nz ny nx : Int) : List Int :=
  if nz > 1 then [nz, ny, nx] else [ny, nx]

/-- Observable outcome of one retrieve_array call: the set commands
issued, the messages printed, whether the temporary transfer file was
created, whether a memory map of it was attempted, and the returned
array (its element type and shape) or None. -/
structure RetrieveTrace where
  sets : List String
  messages : List Message
  madeTempFile : Bool
  memmapped : Bool
  result : Option (NPType × List Int)
  deriving DecidableEq, Repr

/-- Transcription of Connection.retrieve_array as a function of the probe
oracle (the replies to the four fits get probes) and of the temporary
file name. The four probes are issued first; a zero width or height, or
an unrecognized bitpix, prints an error and returns None before the
temporary file, the export set command, and the memory map; otherwise
the export command is issued and the mapped data returned with the
decoded element type and shape. -/
def retrieve_array (probe : String → Option Int) (tmpfile : String) :
    RetrieveTrace :=
  let bitpix := fitsProbe probe "bitpix"
  let nx := fitsProbe probe "width"
  let ny := fitsProbe probe "height"
  let nz := fitsProbe probe "depth"
  if nx = 0 ∨ ny = 0 then
    ⟨[], [.err ("DS9 appears to contain no data")], false, false, none⟩
  else
    match bitpix_to_dtype bitpix with
    | none =>
        ⟨[], [.err ("Unsupported BITPIX: " ++ toString bitpix)],
          false, false, none⟩
    | some dt =>
        ⟨["export array " ++ tmpfile ++ " native"], [], true, true,
          some (dt, decodeShape nz ny nx)⟩

/-- The axis extents as the peer reads them back from the wire
descriptor: a 2D descriptor has no zdim token and the depth defaults to
1 (per the DS9 array file reference quoted above np_to_array); a 3D
descriptor carries its zdim. Returned as (depth, height, width). -/
def encodedExtents : List Nat → Option (Int × Int × Int)
  | [ny, nx] => some (1, ny, nx)
  | [nz, ny, nx] => some (nz, ny, nx)
  | _ => none

/-- The round trip of the spec: an array accepted by np_to_array is
encoded through dtype_to_bitpix, and the decode direction applies
bitpix_to_dtype to that code and the retrieve_array shape selection to
the encoded extents, giving the element type and shape of the decoded
array, or None when any stage rejects the input. -/
def roundTrip (shape : List Nat) (dtype : NPDtype) :
    Option (NPType × List Int) :=
  match np_to_array shape dtype, dtype_to_bitpix dtype, encodedExtents shape with
  | .ok _, .ok bp, some (nz, ny, nx) =>
      match bitpix_to_dtype bp with
      | some t => some (t, decodeShape nz ny nx)
      | none => none
  | _, _, _ => none

/-- The signed integer type of the same bit width for unsigned inputs,
and the identity on every other type: the element type the spec says the
round trip returns. -/
def signedSameWidth : NPType → NPType
  | .uint8 => .int8
  | .uint16 => .int16
  | .uint32 => .int32
  | .uint64 => .int64
  | t => t

/-- The candidate client set computed by start: the ids subscribed to
both ds9.get and ds9.set (a Python set, modelled as a deduplicated
list). -/
def startCandidates (gkeys skeys : List String) : List String :=
  (gkeys.filter (fun k => skeys.contains k)).dedup

/-- The three discovery faults raised by start. -/
inductive StartFault where
  | noClient
  | unknownClient
  | multipleClients
  deriving DecidableEq, Repr

/-- Outcome of start: either a Connection bound to the selected client,
or a raised fault together with whether the fresh bus connection was
disconnected before the raise. -/
inductive StartOutcome where
  | ok (client : String)
  | err (fault : StartFault) (disconnected : Bool)
  deriving DecidableEq, Repr

/-- Transcription of start, as a function of the subscriber lists
returned by the bus for ds9.get and ds9.set and of the optional client
argument. Each error branch of the source calls disconnect on the fresh
bus connection and then raises, which the model records in the err
outcome. -/
def start (gkeys skeys : List String) (client : Option String) :
    StartOutcome :=
  let names := startCandidates gkeys skeys
  if names.length = 0 then .err .noClient true
  else
    match client with
    | some c =>
        if names.contains c then .ok c
        else .err .unknownClient true
    | none =>
        if names.length > 1 then .err .multipleClients true
        else .ok (names.headD "")

/-- Claim C2: bitpix_to_dtype succeeds exactly on the codes -64, -32,
-16, 64, 32, 16 and 8, returning the floating type of the corresponding
bit width for the negative codes and the signed integer type of the
corresponding bit width for the positive codes, and returns None on
every other integer code. -/
theorem bitpix_to_dtype_domain :
    (∀ bp : Int,
      (bitpix_to_dtype bp).isSome = true ↔
        bp ∈ ([-64, -32, -16, 64, 32, 16, 8] : List Int)) ∧
    (bitpix_to_dtype (-64) = some .float64 ∧
     bitpix_to_dtype (-32) = some .float32 ∧
     bitpix_to_dtype (-16) = some .float16 ∧
     bitpix_to_dtype 64 = some .int64 ∧
     bitpix_to_dtype 32 = some .int32 ∧
     bitpix_to_dtype 16 = some .int16 ∧
     bitpix_to_dtype 8 = some .int8) ∧
    (∀ (bp : Int) (t : NPType), bitpix_to_dtype bp = some t →
      (bp < 0 → t.isFloating = true ∧ (t.itemsize : Int) * 8 = -bp) ∧
      (0 < bp → t.isSignedInteger = true ∧ (t.itemsize : Int) * 8 = bp)) := by
  refine ⟨?_, by decide, ?_⟩
  · intro bp
    unfold bitpix_to_dtype
    split_ifs with h1 h2 h3 h4 h5 h6 h7 <;> simp_all
  · intro bp t h
    unfold bitpix_to_dtype at h
    split_ifs at h with h1 h2 h3 h4 h5 h6 h7 <;>
      simp_all [NPType.isFloating, NPType.isSignedInteger, NPType.itemsize] <;>
      subst h <;> decide

/-- Witness for bitpix_to_dtype_domain at the code -64. -/
theorem bitpix_to_dtype_domain_witness :
    (bitpix_to_dtype (-64)).isSome = true :=
  (bitpix_to_dtype_domain.1 (-64)).mpr (by decide)

/-- Claim C1, counterexample: the 3D array of shape (1, 2, 3) and 64-bit
floating element type has non-zero extents and a supported element type,
yet the decode of its encoding yields the 2D shape (2, 3), not the
original shape, because a 2D descriptor and a depth-1 3D descriptor are
indistinguishable on the wire and retrieve_array selects a 2D shape
whenever the depth is not greater than 1. -/
theorem roundTrip_depth1_counterexample :
    roundTrip [1, 2, 3] ⟨.float64, .native⟩ = some (.float64, [2, 3]) ∧
    ¬ (([2, 3] : List Int) = ([1, 2, 3] : List Nat).map (fun n => (n : Int))) :=
  ⟨rfl, by decide⟩

/-- Claim C1, amended: for every 2D array, and every 3D array whose
leading extent is at least 2, with non-zero extents and an element type
that is an integer (signed or unsigned) or floating type, the decode of
the encoding yields the identical shape, and the identical element type
except that unsigned integers come back as the signed integer type of
the same bit width. -/
theorem roundTrip_amended :
    ∀ (t : NPType) (bo : ByteOrder) (shape : List Nat),
      (t.isInteger = true ∨ t.isFloating = true) →
      ((∃ ny nx, shape = [ny, nx] ∧ nx ≠ 0 ∧ ny ≠ 0) ∨
       (∃ nz ny nx, shape = [nz, ny, nx] ∧ nx ≠ 0 ∧ ny ≠ 0 ∧ 2 ≤ nz)) →
      roundTrip shape ⟨t, bo⟩ =
        some (signedSameWidth t, shape.map (fun n => (n : Int))) := by
  intro t bo shape hsupp hshape
  rcases hshape with ⟨ny, nx, rfl, hnx, hny⟩ | ⟨nz, ny, nx, rfl, hnx, hny, hnz⟩
  · cases t <;>
      simp_all [roundTrip, np_to_array, np_to_array_tail, dtype_to_bitpix,
        bitpix_to_dtype, encodedExtents, decodeShape, signedSameWidth,
        NPType.itemsize, NPType.isInteger, NPType.isFloating]
  · have hz : ((1 : Int) < (nz : Int)) := by exact_mod_cast hnz
    cases t <;>
      simp_all [roundTrip, np_to_array, np_to_array_tail, dtype_to_bitpix,
        bitpix_to_dtype, encodedExtents, decodeShape, signedSameWidth,
        NPType.itemsize, NPType.isInteger, NPType.isFloating]

/-- Witness for roundTrip_amended: a 3D unsigned 16-bit array of shape
(4, 2, 3) decodes to the same shape with the signed 16-bit type. -/
theorem roundTrip_amended_witness :
    roundTrip [4, 2, 3] ⟨.uint16, .little⟩ =
      some (signedSameWidth .uint16, ([4, 2, 3] : List Nat).map (fun n => (n : Int))) :=
  roundTrip_amended .uint16 .little [4, 2, 3] (Or.inl (by decide))
    (Or.inr ⟨4, 2, 3, rfl, by decide, by decide, by decide⟩)

/-- Claim C8, counterexample: a 2 by 2 array of 16-bit floating element
type is accepted by encode and its wire descriptor carries bitpix=-16,
so the encode direction does emit the 16-bit floating code. -/
theorem dtype_to_bitpix_float16_counterexample :
    dtype_to_bitpix ⟨.float16, .native⟩ = .ok (-16) ∧
    np_to_array [2, 2] ⟨.float16, .native⟩ = .ok ("[xdim=2,ydim=2,bitpix=-16]") :=
  ⟨rfl, rfl⟩

/-- Claim C8, amended: the encode direction emits the bit-depth code -16
exactly for arrays of 16-bit floating element type; for an array of any
other element type the encoded bitpix is never -16. -/
theorem dtype_to_bitpix_minus16_iff_float16 :
    ∀ dt : NPDtype, dtype_to_bitpix dt = .ok (-16) ↔ dt.type = .float16 := by
  intro ⟨t, bo⟩
  cases t <;>
    simp [dtype_to_bitpix, NPType.itemsize, NPType.isInteger, NPType.isFloating]

/-- Claim C3: contrary to the spec, np_to_array does not reject a 3D
array whose leading (z) axis extent is 0 — only the x and y extents are
checked against 0 — and send_array then proceeds to issue commands over
the bus for such an array. Shown here at the shape (0, 5, 7) with int8
elements: np_to_array returns a descriptor with zdim=0 and send_array
reaches the frame probe and the transfer command. -/
theorem np_to_array_zero_zaxis_accepted :
    np_to_array [0, 5, 7] ⟨.int8, .notApplicable⟩ =
      .ok ("[xdim=7,ydim=5,zdim=0,bitpix=8]") ∧
    send_array [0, 5, 7] ⟨.int8, .notApplicable⟩ none false (some ("1")) ("/tmp/f") =
      .ok [Command.get ("frame active"),
           Command.set ("array  /tmp/f[xdim=7,ydim=5,zdim=0,bitpix=8]")] :=
  ⟨rfl, rfl⟩

/-- Claim C4: encoding a 200 by 500 array of 64-bit floats produces the
descriptor with xdim=500, ydim=200 and bitpix=-64 and no zdim token;
and in general every accepted array yields the bracketed comma-joined
token list in the order xdim, ydim, optional zdim (3D only), bitpix,
optional arch, with the arch token present exactly when the dtype
declares an explicit little or big byte order (archTokens is empty on
the native and not-applicable orders). -/
theorem np_to_array_descriptor :
    np_to_array [200, 500] ⟨.float64, .native⟩ =
      .ok ("[xdim=500,ydim=200,bitpix=-64]") ∧
    ∀ (shape : List Nat) (dt : NPDtype) (s : String),
      np_to_array shape dt = .ok s →
      ∃ bp, dtype_to_bitpix dt = .ok bp ∧
        ((∃ ny nx, shape = [ny, nx] ∧
            s = "[" ++ String.intercalate ","
              (["xdim=" ++ toString nx, "ydim=" ++ toString ny,
                "bitpix=" ++ toString bp] ++ archTokens dt.byteorder) ++ "]") ∨
         (∃ nz ny nx, shape = [nz, ny, nx] ∧
            s = "[" ++ String.intercalate ","
              (["xdim=" ++ toString nx, "ydim=" ++ toString ny,
                "zdim=" ++ toString nz, "bitpix=" ++ toString bp]
                ++ archTokens dt.byteorder) ++ "]")) := by
  refine ⟨rfl, ?_⟩
  intro shape dt s h
  rcases shape with _ | ⟨a, _ | ⟨b, _ | ⟨c, _ | ⟨d, rest⟩⟩⟩⟩ <;>
    simp [np_to_array] at h
  · unfold np_to_array_tail at h
    split_ifs at h with hz
    rcases h2 : dtype_to_bitpix dt with e | bp <;> rw [h2] at h <;> simp at h
    exact ⟨bp, rfl, Or.inl ⟨a, b, rfl, h.symm⟩⟩
  · unfold np_to_array_tail at h
    split_ifs at h with hz
    rcases h2 : dtype_to_bitpix dt with e | bp <;> rw [h2] at h <;> simp at h
    exact ⟨bp, rfl, Or.inr ⟨a, b, c, rfl, h.symm⟩⟩

/-- Witness for np_to_array_descriptor at a 3 by 4 by 5 big-endian
16-bit integer array. -/
theorem np_to_array_descriptor_witness :
    ∃ bp, dtype_to_bitpix ⟨.int16, .big⟩ = .ok bp ∧
      ((∃ ny nx, ([3, 4, 5] : List Nat) = [ny, nx] ∧
          "[xdim=5,ydim=4,zdim=3,bitpix=16,arch=big]" =
            "[" ++ String.intercalate ","
              (["xdim=" ++ toString nx, "ydim=" ++ toString ny,
                "bitpix=" ++ toString bp] ++ archTokens ByteOrder.big) ++ "]") ∨
       (∃ nz ny nx, ([3, 4, 5] : List Nat) = [nz, ny, nx] ∧
          "[xdim=5,ydim=4,zdim=3,bitpix=16,arch=big]" =
            "[" ++ String.intercalate ","
              (["xdim=" ++ toString nx, "ydim=" ++ toString ny,
                "zdim=" ++ toString nz, "bitpix=" ++ toString bp]
                ++ archTokens ByteOrder.big) ++ "]")) :=
  np_to_array_descriptor.2 [3, 4, 5] ⟨.int16, .big⟩
    ("[xdim=5,ydim=4,zdim=3,bitpix=16,arch=big]") rfl

/-- Claim C5: whenever the cube argument is set and the array is not 3D,
or is 3D with a leading extent other than 3, send_array fails with a
raised error — and hence, in this model, with no command issued to the
peer — while with the cube argument unset any raised error is the error
of np_to_array, so no cube validation failure occurs. -/
theorem send_array_cube_validation :
    ∀ (shape : List Nat) (dt : NPDtype) (c : Cube) (mask : Bool)
      (fa : Option String) (tf : String),
      ((shape.length ≠ 3 ∨ shape.headD 0 ≠ 3) →
        ∃ e, send_array shape dt (some c) mask fa tf = .error e) ∧
      (∀ e, send_array shape dt none mask fa tf = .error e →
        np_to_array shape (boolToInt8 dt) = .error e) := by
  intro shape dt c mask fa tf
  constructor
  · intro hbad
    unfold send_array
    cases hnp : np_to_array shape (boolToInt8 dt) with
    | error e => exact ⟨e, by simp [hnp]⟩
    | ok arr =>
        rcases hbad with h | h
        · exact ⟨"data must be 3D to set the cube argument", by simp [hnp, h]⟩
        · by_cases h3 : shape.length = 3
          · have h' : shape.head?.getD 0 ≠ 3 := by
              simpa [List.headD_eq_head?] using h
            exact ⟨"z axis must have size 3 when cube argument is set",
              by simp [hnp, h3, h']⟩
          · exact ⟨"data must be 3D to set the cube argument", by simp [hnp, h3]⟩
  · intro e he
    cases hnp : np_to_array shape (boolToInt8 dt) with
    | error e2 => simp [send_array, hnp] at he; subst he; rfl
    | ok arr => simp [send_array, hnp] at he

/-- Witness for send_array_cube_validation: a 3D float32 array whose
leading extent is 4 is rejected when an RGB cube interpretation is
requested. -/
theorem send_array_cube_validation_witness :
    ∃ e, send_array [4, 2, 2] ⟨.float32, .native⟩ (some Cube.RGB) false none
      ("/tmp/f") = .error e :=
  (send_array_cube_validation [4, 2, 2] ⟨.float32, .native⟩ Cube.RGB false none
    ("/tmp/f")).1 (by decide)

/-- Claim C6: when a well-formed reply envelope carries the error
status, neither get nor set raises: get prints the reported error
message and returns None (the absent sentinel) and set returns normally
after printing the message; the connection object is unchanged by
either call, so the session remains usable. -/
theorem get_set_remote_error_nonfatal :
    ∀ (env : Envelope) (up : String → ParsedUrl)
      (readFile : String → Option String),
      env.status = SampStatus.error →
      conn_get env up readFile = .ok ([.err (ds9ErrorMessage env.errortxt)], none) ∧
      conn_set env = [.err (ds9ErrorMessage env.errortxt)] := by
  intro env up readFile h
  obtain ⟨st, et, v, u⟩ := env
  simp only at h
  subst h
  exact ⟨rfl, rfl⟩

/-- Witness for get_set_remote_error_nonfatal on an error reply whose
errortxt is present. -/
theorem get_set_remote_error_nonfatal_witness :
    conn_get ⟨.error, some ("oops"), none, none⟩ (fun _ => ⟨"", ""⟩)
        (fun _ => none) =
      .ok ([.err (ds9ErrorMessage (some ("oops")))], none) ∧
    conn_set ⟨.error, some ("oops"), none, none⟩ =
      [.err (ds9ErrorMessage (some ("oops")))] :=
  get_set_remote_error_nonfatal ⟨.error, some ("oops"), none, none⟩
    (fun _ => ⟨"", ""⟩) (fun _ => none) rfl

/-- Claim C7: whenever the width or height probe of retrieve_array
yields 0 — including when the probe reply is absent and defaults to 0 —
the call prints the no-data message and returns None without issuing
any set command, without creating the transfer file, and without
attempting a memory map. -/
theorem retrieve_array_no_data :
    ∀ (probe : String → Option Int) (tf : String),
      (fitsProbe probe "width" = 0 ∨ fitsProbe probe "height" = 0) →
      retrieve_array probe tf =
        ⟨[], [.err ("DS9 appears to contain no data")], false, false, none⟩ := by
  intro probe tf h
  unfold retrieve_array
  rcases h with h | h <;> simp [h]

/-- Witness for retrieve_array_no_data: a peer whose probes all return
absent replies. -/
theorem retrieve_array_no_data_witness :
    retrieve_array (fun _ => none) ("/tmp/f") =
      ⟨[], [.err ("DS9 appears to contain no data")], false, false, none⟩ :=
  retrieve_array_no_data (fun _ => none) ("/tmp/f") (Or.inl rfl)

/-- Claim C9: start raises the no-client fault when no peer advertises
both capabilities, raises some fault (the unknown-client fault whenever
any candidate exists) when an explicit client is not among the
candidates, raises the multiple-clients fault when no explicit client is
given and more than one candidate exists, and on every error outcome the
freshly opened bus connection has been disconnected before the raise. -/
theorem start_discovery_faults :
    ∀ (gkeys skeys : List String) (client : Option String),
      (startCandidates gkeys skeys = [] →
        start gkeys skeys client = .err .noClient true) ∧
      (∀ c, client = some c → c ∉ startCandidates gkeys skeys →
        ∃ f, start gkeys skeys client = .err f true) ∧
      (∀ c, client = some c → startCandidates gkeys skeys ≠ [] →
        c ∉ startCandidates gkeys skeys →
        start gkeys skeys client = .err .unknownClient true) ∧
      (client = none → 1 < (startCandidates gkeys skeys).length →
        start gkeys skeys client = .err .multipleClients true) ∧
      (∀ f d, start gkeys skeys client = .err f d → d = true) := by
  intro gkeys skeys client
  refine ⟨?_, ?_, ?_, ?_, ?_⟩
  · intro h
    unfold start
    simp [h]
  · intro c hc hmem
    subst hc
    unfold start
    by_cases h0 : (startCandidates gkeys skeys).length = 0
    · exact ⟨.noClient, by simp [h0]⟩
    · exact ⟨.unknownClient, by simp [h0, hmem]⟩
  · intro c hc hne hmem
    subst hc
    unfold start
    have h0 : ¬(startCandidates gkeys skeys).length = 0 := by
      simpa [List.length_eq_zero] using hne
    simp [h0, hmem]
  · intro hc hlen
    subst hc
    unfold start
    have h0 : ¬(startCandidates gkeys skeys).length = 0 := by omega
    simp [h0, hlen]
  · intro f d h
    rcases client with _ | c <;> simp only [start] at h <;>
      split_ifs at h <;> simp_all

/-- Witness for start_discovery_faults: an empty subscriber list raises
the no-client fault with the connection torn down. -/
theorem start_discovery_faults_witness :
    start [] [] none = .err .noClient true :=
  (start_discovery_faults [] [] none).1 rfl

/-- Claim C10: in the payload resolution of get, an inline value field
wins over a url field when the result carries both (the url is never
consulted); and an ok or warning reply carrying neither field returns
None — the same absent sentinel an error reply produces — so a
successful call with no payload is indistinguishable by return value
from a failed one. -/
theorem get_payload_resolution :
    ∀ (env : Envelope) (up : String → ParsedUrl)
      (readFile : String → Option String),
      (∀ v u, env.value = some v → env.url = some u →
        env.status ≠ SampStatus.error →
        ∃ msgs, conn_get env up readFile = .ok (msgs, some v)) ∧
      ((env.status = SampStatus.ok ∨ env.status = SampStatus.warning) →
        env.value = none → env.url = none →
        ∃ msgs, conn_get env up readFile = .ok (msgs, none)) ∧
      (env.status = SampStatus.error →
        ∃ msgs, conn_get env up readFile = .ok (msgs, none)) := by
  intro env up readFile
  obtain ⟨st, et, v, u⟩ := env
  refine ⟨?_, ?_, ?_⟩
  · intro pv pu hv hu hst
    simp only at hv hu hst
    subst hv; subst hu
    cases st <;> simp_all [conn_get]
  · intro hst hv hu
    simp only at hv hu
    subst hv; subst hu
    rcases hst with h | h <;> simp only at h <;> subst h <;>
      exact ⟨_, rfl⟩
  · intro hst
    simp only at hst
    subst hst
    exact ⟨_, rfl⟩

/-- Witness for get_payload_resolution: an ok reply carrying both a
value and a url returns the inline value. -/
theorem get_payload_resolution_witness :
    ∃ msgs, conn_get ⟨.ok, none, some ("42"), some ("file:///tmp/x")⟩
        (fun _ => ⟨"file", "/tmp/x"⟩) (fun _ => some ("contents")) =
      .ok (msgs, some ("42")) :=
  (get_payload_resolution ⟨.ok, none, some ("42"), some ("file:///tmp/x")⟩
    (fun _ => ⟨"file", "/tmp/x"⟩) (fun _ => some ("contents"))).1
    "42" "file:///tmp/x" rfl rfl (by decide)

end Ds9samp
